import Mathlib

/-!
Verification of the boofuzz fuzzing core (`sessions.py`, `pre_element.py`,
`callback.py`, `blocks/__init__.py`) against its specification.

The Python source is shallowly embedded: stateful methods become explicit
state-passing functions over records mirroring the `Session` object's
attributes, exceptions become `Except`/`Option`, and the generator-based
protocol traversal becomes a fuel-indexed recursive function producing the
list of yielded test cases.
-/

namespace Boofuzz

/-! ## Log entries

Entries produced through the fuzz data logger (`log_info`, `log_fail`,
`log_pass`, `log_check`, `log_error`, `open_test_step`).  `log_fail` entries
are the ones accumulated into `failed_test_cases` and later counted by
`_process_failures`. -/

inductive LogEntry where
  | info (msg : String)
  | fail (msg : String)
  | pass (msg : String)
  | check (msg : String)
  | error (msg : String)
  | testStep (msg : String)
  deriving DecidableEq, Repr

def LogEntry.isFail : LogEntry → Bool
  | .fail _ => true
  | _ => false

def LogEntry.isInfo : LogEntry → Bool
  | .info _ => true
  | _ => false

/-! ## C1: `Session._process_failures` (sessions.py lines 595-641)

The mutant (the primitive currently being mutated inside the fuzz node) is
embedded as a record carrying the data `_process_failures` consults: an
identity (the key into `self.crashing_primitives`), its class for the
`isinstance` checks against `primitives.Group` and `blocks.Repeat`, and its
`num_mutations()` / `mutant_index` values. -/

inductive MutantKind where
  | group
  | repeatBlock
  | other
  deriving DecidableEq, Repr

structure Mutant where
  id : Nat
  kind : MutantKind
  numMutations : Int
  mutantIndex : Int
  deriving DecidableEq, Repr

/-- Lookup in an association list with default `0`, mirroring Python's
`dict.get(key, 0)`. -/
def assocGetD (l : List (Nat × Nat)) (k : Nat) : Nat :=
  match l.find? (fun p => p.1 = k) with
  | some p => p.2
  | none => 0

/-- Store into an association list, mirroring Python's `dict[key] = value`. -/
def assocSet {κ α : Type} [DecidableEq κ] (l : List (κ × α)) (k : κ) (v : α) :
    List (κ × α) :=
  (k, v) :: l.filter (fun p => p.1 ≠ k)

/-- The slice of `Session` state read and written by `_process_failures`. -/
structure FailureState where
  crashingPrimitives : List (Nat × Nat)
  procmonResults : List (Int × String)
  totalMutantIndex : Int
  fuzzNodeMutantIndex : Int
  mutant : Mutant
  skipAfterCurTestCase : Bool
  crashThreshold : Nat
  deriving Repr

/-- Embedding of `Session._process_failures` (sessions.py lines 595-641).
`crashSynopses` is `self._fuzz_data_logger.failed_test_cases.get(index, [])`.
The returned `Bool` records whether `restart_target` was invoked. -/
def processFailures (s : FailureState) (crashSynopses : List String) :
    FailureState × Bool :=
  if crashSynopses.length > 0 then
    let newCount := assocGetD s.crashingPrimitives s.mutant.id + 1
    let crashing := assocSet s.crashingPrimitives s.mutant.id newCount
    let synopsis :=
      if crashSynopses.length > 1 then
        "(" ++ toString crashSynopses.length ++ " reports) " ++
          String.intercalate "\n" crashSynopses
      else String.intercalate "\n" crashSynopses
    let procmon := assocSet s.procmonResults s.totalMutantIndex synopsis
    if newCount ≥ s.crashThreshold ∧ s.mutant.kind ≠ MutantKind.group ∧
        s.mutant.kind ≠ MutantKind.repeatBlock then
      let skipped := s.mutant.numMutations - s.mutant.mutantIndex
      ({ s with
          crashingPrimitives := crashing
          procmonResults := procmon
          skipAfterCurTestCase := true
          totalMutantIndex := s.totalMutantIndex + skipped
          fuzzNodeMutantIndex := s.fuzzNodeMutantIndex + skipped }, true)
    else
      ({ s with
          crashingPrimitives := crashing
          procmonResults := procmon }, true)
  else
    (s, false)

/-! ## C3: skip logic of `Session._main_fuzz_loop` (sessions.py lines 459-474)

Each yielded test case carries the value of `self.total_mutant_index` at the
moment of the yield (the iterator increments it just before yielding).  The
loop state tracks `num_cases_actually_fuzzed`, the indices passed to
`_fuzz_current_case`, and the points at which `restart_target` fired. -/

structure LoopState where
  numCasesActuallyFuzzed : Nat
  executed : List Nat
  restartsAt : List Nat
  deriving DecidableEq, Repr

/-- One iteration of the `for fuzz_args in fuzz_case_iterator` body
(sessions.py lines 460-474), for the test case whose global mutation index
is `i`. -/
def mainFuzzLoopStep (skip restartInterval : Nat) (s : LoopState) (i : Nat) :
    LoopState :=
  if i ≤ skip then s
  else
    let restartsAt :=
      if s.numCasesActuallyFuzzed ≠ 0 ∧ restartInterval ≠ 0 ∧
          s.numCasesActuallyFuzzed % restartInterval = 0 then
        s.restartsAt ++ [s.numCasesActuallyFuzzed]
      else s.restartsAt
    { numCasesActuallyFuzzed := s.numCasesActuallyFuzzed + 1
      executed := s.executed ++ [i]
      restartsAt := restartsAt }

/-- The main fuzz loop run over the whole sequence of yielded test-case
indices (no exception raised mid-run). -/
def mainFuzzLoop (skip restartInterval : Nat) (cases : List Nat) : LoopState :=
  cases.foldl (mainFuzzLoopStep skip restartInterval)
    ⟨0, [], []⟩

/-! ## C2: protocol traversal vs `Session.num_mutations`

The session graph (`pgraph.Graph` as used by `Session`): nodes are request
ids, `edges_from` filters the edge list by source, and the root is a
sentinel node that is never fuzzed.  Each non-root node is a `Request`;
the only facts about `Request` the traversal depends on are its
`num_mutations()` value and the behaviour of its `mutate()` cursor. -/

structure GEdge where
  src : Nat
  dst : Nat
  deriving DecidableEq, Repr

structure SessionGraph where
  root : Nat
  edges : List GEdge
  reqNumMutations : Nat → Nat

/-- Embedding of `pgraph.Graph.edges_from`: the outbound edges of a node,
in insertion order. -/
def edgesFrom (g : SessionGraph) (nodeId : Nat) : List GEdge :=
  g.edges.filter (fun e => e.src = nodeId)

/-- Modelled from the spec: `Request.mutate` (blocks/request.py is not part
of the source tree).  Per spec section 4.3, repeatedly calling `mutate()`
on a request yields exactly `num_mutations()` successive mutation states,
with the cursor's `mutant_index` running 1..N, after which `mutate()`
returns false with the request restored to its default state. -/
def requestMutationStates (g : SessionGraph) (nodeId : Nat) : List Nat :=
  (List.range (g.reqNumMutations nodeId)).map (fun i => i + 1)

/-- A yielded test case: the path of edges handed to `_fuzz_current_case`,
together with the fuzz node's mutation counter at the yield. -/
structure TestCase where
  path : List GEdge
  mutantStep : Nat
  deriving DecidableEq, Repr

/-- Embedding of `Session._iterate_single_node` (sessions.py lines 852-871),
with `_skip_after_cur_test_case` never set (no crash-threshold exhaustion):
one test case is yielded per mutation of the request at `path[-1].dst`. -/
def iterateSingleNode (g : SessionGraph) (path : List GEdge) : List TestCase :=
  match path.getLast? with
  | some e => (requestMutationStates g e.dst).map (fun i => ⟨path, i⟩)
  | none => []

/-- One step of the `for edge in self.edges_from(this_node.id)` loop of
`Session._iterate_protocol_recursive` (sessions.py lines 835-846): append
the edge to the path, yield the destination's mutations, then recurse into
the destination (which `_iterate_single_node` left as `self.fuzz_node`).
`recur` is the recursive call at the next fuel level. -/
def iterateEdgeLoop (g : SessionGraph)
    (recur : Nat → List GEdge → Option (List TestCase)) :
    List GEdge → List GEdge → Option (List TestCase)
  | [], _ => some []
  | e :: rest, path =>
    match recur e.dst (path ++ [e]), iterateEdgeLoop g recur rest path with
    | some sub, some tail =>
      some ((iterateSingleNode g (path ++ [e]) ++ sub) ++ tail)
    | _, _ => none

/-- Embedding of `Session._iterate_protocol_recursive` (sessions.py lines
824-850).  The Python recursion does not terminate on cyclic graphs; `fuel`
makes this explicit, with `none` standing for a run that exceeds the fuel. -/
def iterateProtocolRecursive (g : SessionGraph) :
    Nat → Nat → List GEdge → Option (List TestCase)
  | 0, _, _ => none
  | fuel + 1, nodeId, path =>
    iterateEdgeLoop g (iterateProtocolRecursive g fuel) (edgesFrom g nodeId) path

/-- Embedding of `Session._iterate_protocol` (sessions.py lines 804-822):
raises `SullyRuntimeError` without a target or without an edge from root,
otherwise runs the recursive traversal from the root with an empty path. -/
def iterateProtocol (g : SessionGraph) (numTargets : Nat) (fuel : Nat) :
    Except String (Option (List TestCase)) :=
  if numTargets = 0 then Except.error "No targets specified in session"
  else if edgesFrom g g.root = [] then
    Except.error "No requests specified in session"
  else Except.ok (iterateProtocolRecursive g fuel g.root [])

/-- One step of the `for edge in self.edges_from(this_node.id)` loop of
`Session.num_mutations` (sessions.py lines 545-552): add the destination
request's `num_mutations()`, then recurse into the destination. -/
def numMutationsEdgeLoop (g : SessionGraph) (recur : Nat → Option Nat) :
    List GEdge → Option Nat
  | [] => some 0
  | e :: rest =>
    match recur e.dst, numMutationsEdgeLoop g recur rest with
    | some sub, some tail => some ((g.reqNumMutations e.dst + sub) + tail)
    | _, _ => none

/-- Embedding of `Session.num_mutations` (sessions.py lines 525-558), with
the same fuel discipline as the traversal (the Python code loops forever on
exactly the graphs on which the traversal does). -/
def numMutationsRec (g : SessionGraph) : Nat → Nat → Option Nat
  | 0, _ => none
  | fuel + 1, nodeId =>
    numMutationsEdgeLoop g (numMutationsRec g fuel) (edgesFrom g nodeId)

/-- Entry point `session.num_mutations()` (called from `fuzz()` with the
root node). -/
def numMutations (g : SessionGraph) (fuel : Nat) : Option Nat :=
  numMutationsRec g fuel g.root

/-! ## C4 / C5: persistence (`export_file` / `import_file`,
sessions.py lines 358-385 and 492-519)

`SessionState` carries the attributes `export_file` serialises plus the
parts of the session that are *not* serialised (the graph and the fuzz
cursor), so that the theorems can speak about what import leaves alone.
`sleep_time` is a Python float used only opaquely (stored, compared,
slept); it is embedded as a rational. -/

structure SessionState where
  sessionFilename : Option String
  skip : Int
  sleepTime : Rat
  restartSleepTime : Int
  restartInterval : Int
  webPort : Int
  crashThreshold : Nat
  totalNumMutations : Int
  totalMutantIndex : Int
  netmonResults : List (Int × Int)
  procmonResults : List (Int × String)
  isPaused : Bool
  graphEdges : List GEdge
  fuzzNodeId : Option Nat
  deriving DecidableEq, Repr

/-- The dictionary written by `Session.export_file` (sessions.py lines
368-381): exactly the listed state counters, with `skip` set to the current
`total_mutant_index`.  The graph and fuzz cursor have no field here. -/
structure ExportData where
  sessionFilename : Option String
  skip : Int
  sleepTime : Rat
  restartSleepTime : Int
  restartInterval : Int
  webPort : Int
  crashThreshold : Nat
  totalNumMutations : Int
  totalMutantIndex : Int
  netmonResults : List (Int × Int)
  procmonResults : List (Int × String)
  isPaused : Bool
  deriving DecidableEq, Repr

/-- The snapshot `Session.export_file` builds (sessions.py lines 368-381). -/
def exportData (s : SessionState) : ExportData :=
  { sessionFilename := s.sessionFilename
    skip := s.totalMutantIndex
    sleepTime := s.sleepTime
    restartSleepTime := s.restartSleepTime
    restartInterval := s.restartInterval
    webPort := s.webPort
    crashThreshold := s.crashThreshold
    totalNumMutations := s.totalNumMutations
    totalMutantIndex := s.totalMutantIndex
    netmonResults := s.netmonResults
    procmonResults := s.procmonResults
    isPaused := s.isPaused }

/-- Embedding of `Session.export_file` (sessions.py lines 358-385).  The
file write sits outside any `try`; its outcome is abstracted as the `write`
argument, and any write error propagates to the caller unchanged. -/
def exportFile (s : SessionState) (write : ExportData → Except String Unit) :
    Except String Unit :=
  match s.sessionFilename with
  | none => Except.ok ()
  | some _ => write (exportData s)

/-- Outcome of reading and unpickling the session file inside
`import_file`'s `try` block: the file may be missing or unreadable
(`IOError`), corrupt (`zlib.error` / `cPickle.UnpicklingError`), or yield
a snapshot. -/
inductive ReadOutcome where
  | missing
  | corrupt
  | ok (d : ExportData)
  deriving DecidableEq, Repr

/-- The field restoration of `Session.import_file` (sessions.py lines
507-519): every persisted counter is copied back and `skip` is set to the
persisted `total_mutant_index`.  Graph and fuzz cursor are untouched. -/
def importApply (s : SessionState) (d : ExportData) : SessionState :=
  { s with
      skip := d.totalMutantIndex
      sessionFilename := d.sessionFilename
      sleepTime := d.sleepTime
      restartSleepTime := d.restartSleepTime
      restartInterval := d.restartInterval
      webPort := d.webPort
      crashThreshold := d.crashThreshold
      totalNumMutations := d.totalNumMutations
      totalMutantIndex := d.totalMutantIndex
      netmonResults := d.netmonResults
      procmonResults := d.procmonResults
      isPaused := d.isPaused }

/-- Embedding of `Session.import_file` (sessions.py lines 492-519): with no
session filename it returns immediately; a missing or corrupt file is
swallowed by the `except (IOError, zlib.error, cPickle.UnpicklingError)`
clause and the function returns with the state unchanged; otherwise the
snapshot's counters are restored.  The function is total: no error ever
escapes it. -/
def importFile (s : SessionState) (read : ReadOutcome) : SessionState :=
  match s.sessionFilename with
  | none => s
  | some _ =>
    match read with
    | ReadOutcome.missing => s
    | ReadOutcome.corrupt => s
    | ReadOutcome.ok d => importApply s d

/-! ## C6: `Session.restart_target` (sessions.py lines 692-731) -/

/-- The target attributes `restart_target` consults: whether VM control is
configured, and — when a process monitor is attached — the boolean its
`restart_target()` RPC returns. -/
structure RTarget where
  vmcontrol : Bool
  procmon : Option Bool
  deriving DecidableEq, Repr

/-- Which restart method `restart_target` ended up using. -/
inductive RestartMethod where
  | onFailureHooks (count : Nat)
  | vmRevert
  | procmonRestart
  | sleepWait (seconds : Int)
  deriving DecidableEq, Repr

/-- Embedding of `Session.restart_target` (sessions.py lines 692-731):
`numOnFailureHooks` is `len(self.on_failure)`.  The `Except` error is
`sex.BoofuzzRestartFailedError`, raised exactly when the process-monitor
branch is taken and `procmon.restart_target()` returns false. -/
def restartTarget (numOnFailureHooks : Nat) (restartSleepTime : Int)
    (t : RTarget) : Except Unit RestartMethod :=
  if numOnFailureHooks > 0 then
    Except.ok (RestartMethod.onFailureHooks numOnFailureHooks)
  else if t.vmcontrol then
    Except.ok RestartMethod.vmRevert
  else
    match t.procmon with
    | some restarted =>
      if ¬restarted then Except.error ()
      else Except.ok RestartMethod.procmonRestart
    | none => Except.ok (RestartMethod.sleepWait restartSleepTime)

/-! ## C7 / C10: `Session.transmit` (sessions.py lines 740-794) -/

/-- Outcome of the `try` body of `transmit` (send, optional receive): either
it runs to completion — carrying the received bytes when
`check_data_received_each_request` is on — or the transport raised a
connection-reset (`BoofuzzTargetConnectionReset`) or connection-aborted
(`BoofuzzTargetConnectionAborted`) error during send or receive. -/
inductive TransmitOutcome where
  | completed (recvData : Option (List Nat))
  | connectionReset
  | connectionAborted (socketErrno : Int) (socketErrmsg : String)
  deriving DecidableEq, Repr

/-- The connection-aborted log message (sessions.py lines 785-793), same
text for the info and the fail variant. -/
def abortedMsg (socketErrno : Int) (socketErrmsg : String) : String :=
  "Target connection lost (socket error: " ++ toString socketErrno ++ " " ++
    socketErrmsg ++ "): You may have a network issue, or an issue with " ++
    "firewalls or anti-virus. Try disabling your firewall."

/-- The log entries `transmit` emits from the `try`/`except` region
(sessions.py lines 760-794).  Both `except` clauses swallow the error —
`transmit` always returns, so the test case always runs to completion. -/
def transmitLogs (ignoreConnectionReset ignoreConnectionAborted : Bool)
    (outcome : TransmitOutcome) : List LogEntry :=
  match outcome with
  | TransmitOutcome.completed recvData =>
    match recvData with
    | none => []
    | some d =>
      [LogEntry.check "Verify some data was received from the target."] ++
        (if d.isEmpty then [LogEntry.fail "Nothing received from target."]
         else [LogEntry.pass "Some data received from target."])
  | TransmitOutcome.connectionReset =>
    if ignoreConnectionReset then [LogEntry.info "Target connection reset."]
    else [LogEntry.fail "Target connection reset."]
  | TransmitOutcome.connectionAborted errno errmsg =>
    if ignoreConnectionAborted then [LogEntry.info (abortedMsg errno errmsg)]
    else [LogEntry.fail (abortedMsg errno errmsg)]

/-- The data-selection prologue of `Session.transmit` (sessions.py lines
750-758).  `edgeCallback`: `none` when the edge has no callback, otherwise
`some r` where `r` is the callback's return value (`none` for Python
`None`).  Python's `if not data` treats both `None` and empty bytes as
falsy, in which case `node.render()` is used instead. -/
def transmitData (edgeCallback : Option (Option (List Nat)))
    (nodeRender : List Nat) : List Nat :=
  let data : Option (List Nat) :=
    match edgeCallback with
    | none => none
    | some r => r
  match data with
  | some d => if d.isEmpty then nodeRender else d
  | none => nodeRender

/-! ## C8: exception policy of `Session._main_fuzz_loop`
(sessions.py lines 475-490) -/

/-- The exceptions the main fuzz loop's `except` clauses handle. -/
inductive LoopException where
  | userInterrupt
  | restartFailed
  | targetConnectionFailed
  deriving DecidableEq, Repr

/-- Side effects a handler performs, in order. -/
inductive HandlerAction where
  | exportSession
  | logError (msg : String)
  deriving DecidableEq, Repr

/-- The loop-level connection-failure message (sessions.py lines 485-489). -/
def connectionFailedMsg : String :=
  "Cannot connect to target; target presumed down." ++
    " Note: Normally a failure should be detected, and the target reset." ++
    " This error may mean you have no restart method configured, or your error" ++
    " detection is not working."

/-- Embedding of the `except` clauses of `Session._main_fuzz_loop`
(sessions.py lines 475-490): the actions each handler performs in order,
and the exception it re-raises (`none` when the handler swallows it and
the loop returns, ending the run). -/
def handleLoopException :
    LoopException → List HandlerAction × Option LoopException
  | LoopException.userInterrupt =>
    ([HandlerAction.exportSession,
      HandlerAction.logError "SIGINT received ... exiting"],
     some LoopException.userInterrupt)
  | LoopException.restartFailed =>
    ([HandlerAction.logError "Restarting the target failed, exiting.",
      HandlerAction.exportSession],
     some LoopException.restartFailed)
  | LoopException.targetConnectionFailed =>
    ([HandlerAction.logError connectionFailedMsg,
      HandlerAction.exportSession],
     none)

/-! ## C9: `PreElement._render` (pre_element.py lines 31-46) over the
process-scoped `KEYS` store (blocks/__init__.py line 16) -/

/-- Lookup in the `KEYS` dictionary, embedded as an association list.
`none` is Python's `KeyError` on `KEYS[self._key]`. -/
def keysLookup (keys : List (String × String)) (k : String) : Option String :=
  (keys.find? (fun p => p.1 = k)).map (fun p => p.2)

/-- Embedding of `PreElement._render` (pre_element.py lines 31-46): with no
callback, format `key + ':' + KEYS[key] + '\n'`; with a callback, return
`callback(key, KEYS[key])`.  Either way `KEYS[self._key]` is evaluated, so
an absent key raises (`none`): the render function is partial in the key. -/
def preElementRender (keys : List (String × String)) (key : String)
    (callback : Option (String → String → String)) : Option String :=
  match keysLookup keys key with
  | none => none
  | some v =>
    match callback with
    | none => some (key ++ ":" ++ v ++ "\n")
    | some cb => some (cb key v)

/-! ## Theorems -/

/-- C1: when failures are recorded for the current test case and the
per-primitive crash counter for the request's current mutant reaches the
crash threshold, and that mutant is neither a Group nor a Repeat, the
session's `total_mutant_index` and the fuzz node's `mutant_index` each
increase by exactly the mutant's `num_mutations()` minus the mutant's
`mutant_index` at that moment, and the skip-after-current-test-case flag
is set. -/
theorem processFailures_crash_threshold_exhaustion (s : FailureState)
    (syn : List String)
    (hsyn : syn ≠ [])
    (hthr : assocGetD s.crashingPrimitives s.mutant.id + 1 ≥ s.crashThreshold)
    (hgrp : s.mutant.kind ≠ MutantKind.group)
    (hrep : s.mutant.kind ≠ MutantKind.repeatBlock) :
    (processFailures s syn).1.totalMutantIndex =
        s.totalMutantIndex + (s.mutant.numMutations - s.mutant.mutantIndex)
    ∧ (processFailures s syn).1.fuzzNodeMutantIndex =
        s.fuzzNodeMutantIndex + (s.mutant.numMutations - s.mutant.mutantIndex)
    ∧ (processFailures s syn).1.skipAfterCurTestCase = true := by
  have hlen : syn.length > 0 := List.length_pos.mpr hsyn
  unfold processFailures
  simp only [if_pos hlen, if_pos (And.intro hthr (And.intro hgrp hrep))]
  exact ⟨trivial, trivial, trivial⟩

/-- Witness for C1 at a concrete state: mutant with 10 mutations, cursor at
3, two prior crashes, threshold 3; the counters jump by 7 and the skip flag
is raised. -/
theorem processFailures_crash_threshold_exhaustion_witness :
    (processFailures
        { crashingPrimitives := [(7, 2)]
          procmonResults := []
          totalMutantIndex := 5
          fuzzNodeMutantIndex := 3
          mutant := { id := 7, kind := MutantKind.other,
                      numMutations := 10, mutantIndex := 3 }
          skipAfterCurTestCase := false
          crashThreshold := 3 } ["procmon detected crash"]).1.totalMutantIndex
      = 12
    ∧ (processFailures
        { crashingPrimitives := [(7, 2)]
          procmonResults := []
          totalMutantIndex := 5
          fuzzNodeMutantIndex := 3
          mutant := { id := 7, kind := MutantKind.other,
                      numMutations := 10, mutantIndex := 3 }
          skipAfterCurTestCase := false
          crashThreshold := 3 } ["procmon detected crash"]).1.fuzzNodeMutantIndex
      = 10
    ∧ (processFailures
        { crashingPrimitives := [(7, 2)]
          procmonResults := []
          totalMutantIndex := 5
          fuzzNodeMutantIndex := 3
          mutant := { id := 7, kind := MutantKind.other,
                      numMutations := 10, mutantIndex := 3 }
          skipAfterCurTestCase := false
          crashThreshold := 3 } ["procmon detected crash"]).1.skipAfterCurTestCase
      = true := by
  have h := processFailures_crash_threshold_exhaustion
    { crashingPrimitives := [(7, 2)]
      procmonResults := []
      totalMutantIndex := 5
      fuzzNodeMutantIndex := 3
      mutant := { id := 7, kind := MutantKind.other,
                  numMutations := 10, mutantIndex := 3 }
      skipAfterCurTestCase := false
      crashThreshold := 3 } ["procmon detected crash"]
    (by decide) (by decide) (by decide) (by decide)
  exact ⟨by rw [h.1]; decide, by rw [h.2.1]; decide, h.2.2⟩

/-- Helper for C3: the executed indices accumulated by folding the loop body
over the yielded cases are the initial ones followed by exactly the yielded
indices strictly above `skip`. -/
theorem mainFuzzLoop_executed_aux (skip ri : Nat) (cases : List Nat) :
    ∀ s : LoopState,
      (cases.foldl (mainFuzzLoopStep skip ri) s).executed =
        s.executed ++ cases.filter (fun i => skip < i) := by
  induction cases with
  | nil => intro s; simp
  | cons i rest ih =>
    intro s
    simp only [List.foldl_cons, List.filter_cons]
    by_cases h : i ≤ skip
    · have hnot : ¬ skip < i := not_lt.mpr h
      simp only [mainFuzzLoopStep, if_pos h, ih, decide_eq_true_eq]
      simp [hnot]
    · have hlt : skip < i := not_le.mp h
      rw [ih]
      simp [mainFuzzLoopStep, if_neg h, hlt]

/-- C3: in the main fuzz loop, a yielded test case is executed (handed to
`_fuzz_current_case`) if and only if its global mutation index
`total_mutant_index` is strictly greater than the session's `skip` value;
every case whose index is at most `skip` is passed over. -/
theorem mainFuzzLoop_executes_iff_above_skip (skip ri i : Nat)
    (cases : List Nat) :
    i ∈ (mainFuzzLoop skip ri cases).executed ↔ (i ∈ cases ∧ skip < i) := by
  rw [mainFuzzLoop, mainFuzzLoop_executed_aux]
  simp [List.mem_filter]

/-- Helper for C2: one visit of `_iterate_single_node` on a nonempty path
yields exactly `num_mutations()` of the request at the path's final edge. -/
theorem iterateSingleNode_length (g : SessionGraph) (path : List GEdge)
    (e : GEdge) :
    (iterateSingleNode g (path ++ [e])).length = g.reqNumMutations e.dst := by
  rw [iterateSingleNode, List.getLast?_concat]
  simp [requestMutationStates]

/-- Helper for C2: under the induction hypothesis for the next fuel level,
the per-edge loops of the traversal and of `num_mutations` agree: the
traversal segment for an edge list has as many test cases as the
`num_mutations` accumulation over the same edges. -/
theorem iterateEdgeLoop_length (g : SessionGraph) (fuel : Nat)
    (ih : ∀ (nodeId : Nat) (path : List GEdge) (cases : List TestCase),
      iterateProtocolRecursive g fuel nodeId path = some cases →
      numMutationsRec g fuel nodeId = some cases.length) :
    ∀ (es : List GEdge) (path : List GEdge) (cases : List TestCase),
      iterateEdgeLoop g (iterateProtocolRecursive g fuel) es path =
        some cases →
      numMutationsEdgeLoop g (numMutationsRec g fuel) es =
        some cases.length := by
  intro es
  induction es with
  | nil =>
    intro path cases h
    simp only [iterateEdgeLoop, Option.some.injEq] at h
    simp [numMutationsEdgeLoop, ← h]
  | cons e rest ihe =>
    intro path cases h
    simp only [iterateEdgeLoop] at h
    cases hsub : iterateProtocolRecursive g fuel e.dst (path ++ [e]) with
    | none => rw [hsub] at h; exact absurd h (by simp)
    | some sub =>
      cases htail :
          iterateEdgeLoop g (iterateProtocolRecursive g fuel) rest path with
      | none => rw [hsub, htail] at h; exact absurd h (by simp)
      | some tail =>
        rw [hsub, htail] at h
        simp only [Option.some.injEq] at h
        have hn := ih e.dst (path ++ [e]) sub hsub
        have ht := ihe path tail htail
        simp only [numMutationsEdgeLoop, hn, ht, Option.some.injEq]
        subst h
        simp [iterateSingleNode_length]
        omega

/-- Helper for C2: whenever the traversal recursion completes within its
fuel, the `num_mutations` recursion completes within the same fuel and
returns exactly the number of yielded test cases. -/
theorem iterateProtocolRecursive_length (g : SessionGraph) :
    ∀ (fuel nodeId : Nat) (path : List GEdge) (cases : List TestCase),
      iterateProtocolRecursive g fuel nodeId path = some cases →
      numMutationsRec g fuel nodeId = some cases.length := by
  intro fuel
  induction fuel with
  | zero =>
    intro nodeId path cases h
    exact absurd h (by simp [iterateProtocolRecursive])
  | succ fuel ih =>
    intro nodeId path cases h
    rw [iterateProtocolRecursive] at h
    rw [numMutationsRec]
    exact iterateEdgeLoop_length g fuel
      (fun n p c hc => ih n p c hc) (edgesFrom g nodeId) path cases h

/-- C2: for every session graph with at least one target and at least one
edge from root, and with no crash-threshold exhaustion, the number of test
cases yielded by the full protocol traversal `_iterate_protocol` equals the
value returned by `num_mutations()`. -/
theorem iterateProtocol_length_eq_numMutations (g : SessionGraph)
    (numTargets fuel : Nat) (cases : List TestCase)
    (htargets : 0 < numTargets)
    (hedges : edgesFrom g g.root ≠ [])
    (h : iterateProtocol g numTargets fuel = Except.ok (some cases)) :
    numMutations g fuel = some cases.length := by
  rw [iterateProtocol, if_neg (Nat.pos_iff_ne_zero.mp htargets),
    if_neg hedges] at h
  simp only [Except.ok.injEq] at h
  exact iterateProtocolRecursive_length g fuel g.root [] cases h

/-- Witness for C2: a two-request chain (root → A → B, with 2 and 3
mutations respectively) traversed with fuel 3 yields 5 test cases, and
`num_mutations()` returns 5. -/
theorem iterateProtocol_length_eq_numMutations_witness :
    numMutations
      { root := 0
        edges := [{ src := 0, dst := 1 }, { src := 1, dst := 2 }]
        reqNumMutations := fun n => if n = 1 then 2 else if n = 2 then 3 else 0 }
      3 = some 5 := by
  have h := iterateProtocol_length_eq_numMutations
    { root := 0
      edges := [{ src := 0, dst := 1 }, { src := 1, dst := 2 }]
      reqNumMutations := fun n => if n = 1 then 2 else if n = 2 then 3 else 0 }
    1 3
    [⟨[{ src := 0, dst := 1 }], 1⟩,
     ⟨[{ src := 0, dst := 1 }], 2⟩,
     ⟨[{ src := 0, dst := 1 }, { src := 1, dst := 2 }], 1⟩,
     ⟨[{ src := 0, dst := 1 }, { src := 1, dst := 2 }], 2⟩,
     ⟨[{ src := 0, dst := 1 }, { src := 1, dst := 2 }], 3⟩]
    (by decide) (by decide) (by rfl)
  simpa using h

/-- C4: `export_file` snapshots exactly the session's state counters — with
`skip` set to the current `total_mutant_index` — and not the graph (the
snapshot is invariant under changing the graph and the fuzz cursor); on
restore, the counters come back with `skip` set to the persisted
`total_mutant_index`, so importing a session's own snapshot changes nothing
but `skip`, which becomes the last `total_mutant_index`. -/
theorem export_import_state_counters (s : SessionState) :
    (∀ (edges : List GEdge) (fz : Option Nat),
      exportData { s with graphEdges := edges, fuzzNodeId := fz } =
        exportData s)
    ∧ (exportData s).skip = s.totalMutantIndex
    ∧ (exportData s).totalMutantIndex = s.totalMutantIndex
    ∧ (∀ d : ExportData,
        (importApply s d).skip = d.totalMutantIndex
        ∧ (importApply s d).totalMutantIndex = d.totalMutantIndex
        ∧ (importApply s d).graphEdges = s.graphEdges
        ∧ (importApply s d).fuzzNodeId = s.fuzzNodeId)
    ∧ (∀ f : String, s.sessionFilename = some f →
        importFile s (ReadOutcome.ok (exportData s)) =
          { s with skip := s.totalMutantIndex }) := by
  refine ⟨fun edges fz => rfl, rfl, rfl,
    fun d => ⟨rfl, rfl, rfl, rfl⟩, fun f hf => ?_⟩
  simp [importFile, hf, importApply, exportData]

/-- Witness for C4 at a concrete session: importing the session's own
snapshot resets only `skip`, to the persisted `total_mutant_index` 42. -/
theorem export_import_state_counters_witness :
    importFile
      { sessionFilename := some "boofuzz.session"
        skip := 0
        sleepTime := 1
        restartSleepTime := 5
        restartInterval := 0
        webPort := 26000
        crashThreshold := 3
        totalNumMutations := 100
        totalMutantIndex := 42
        netmonResults := [(41, 512)]
        procmonResults := [(40, "crash")]
        isPaused := false
        graphEdges := [{ src := 0, dst := 1 }]
        fuzzNodeId := some 1 }
      (ReadOutcome.ok (exportData
        { sessionFilename := some "boofuzz.session"
          skip := 0
          sleepTime := 1
          restartSleepTime := 5
          restartInterval := 0
          webPort := 26000
          crashThreshold := 3
          totalNumMutations := 100
          totalMutantIndex := 42
          netmonResults := [(41, 512)]
          procmonResults := [(40, "crash")]
          isPaused := false
          graphEdges := [{ src := 0, dst := 1 }]
          fuzzNodeId := some 1 })) =
    { sessionFilename := some "boofuzz.session"
      skip := 42
      sleepTime := 1
      restartSleepTime := 5
      restartInterval := 0
      webPort := 26000
      crashThreshold := 3
      totalNumMutations := 100
      totalMutantIndex := 42
      netmonResults := [(41, 512)]
      procmonResults := [(40, "crash")]
      isPaused := false
      graphEdges := [{ src := 0, dst := 1 }]
      fuzzNodeId := some 1 } := by
  exact (export_import_state_counters
    { sessionFilename := some "boofuzz.session"
      skip := 0
      sleepTime := 1
      restartSleepTime := 5
      restartInterval := 0
      webPort := 26000
      crashThreshold := 3
      totalNumMutations := 100
      totalMutantIndex := 42
      netmonResults := [(41, 512)]
      procmonResults := [(40, "crash")]
      isPaused := false
      graphEdges := [{ src := 0, dst := 1 }]
      fuzzNodeId := some 1 }).2.2.2.2 "boofuzz.session" rfl

/-- C5: a missing, unreadable, or corrupt session file makes `import_file`
return with all session state unchanged and no error (the session starts
fresh), while a write error in `export_file` propagates to the caller. -/
theorem importFile_silent_exportFile_propagates (s : SessionState) :
    importFile s ReadOutcome.missing = s
    ∧ importFile s ReadOutcome.corrupt = s
    ∧ (∀ (f msg : String), s.sessionFilename = some f →
        exportFile s (fun _ => Except.error msg) = Except.error msg) := by
  refine ⟨?_, ?_, fun f msg hf => ?_⟩
  · rw [importFile]; cases s.sessionFilename <;> rfl
  · rw [importFile]; cases s.sessionFilename <;> rfl
  · rw [exportFile, hf]

/-- Witness for C5 at a concrete session with persistence enabled: corrupt
reads leave the state untouched, failing writes surface their error. -/
theorem importFile_silent_exportFile_propagates_witness :
    importFile
      { sessionFilename := some "boofuzz.session"
        skip := 3
        sleepTime := 0
        restartSleepTime := 5
        restartInterval := 0
        webPort := 26000
        crashThreshold := 3
        totalNumMutations := 10
        totalMutantIndex := 3
        netmonResults := []
        procmonResults := []
        isPaused := false
        graphEdges := []
        fuzzNodeId := none }
      ReadOutcome.corrupt =
      { sessionFilename := some "boofuzz.session"
        skip := 3
        sleepTime := 0
        restartSleepTime := 5
        restartInterval := 0
        webPort := 26000
        crashThreshold := 3
        totalNumMutations := 10
        totalMutantIndex := 3
        netmonResults := []
        procmonResults := []
        isPaused := false
        graphEdges := []
        fuzzNodeId := none }
    ∧ exportFile
      { sessionFilename := some "boofuzz.session"
        skip := 3
        sleepTime := 0
        restartSleepTime := 5
        restartInterval := 0
        webPort := 26000
        crashThreshold := 3
        totalNumMutations := 10
        totalMutantIndex := 3
        netmonResults := []
        procmonResults := []
        isPaused := false
        graphEdges := []
        fuzzNodeId := none }
      (fun _ => Except.error "disk full") = Except.error "disk full" := by
  have h := importFile_silent_exportFile_propagates
    { sessionFilename := some "boofuzz.session"
      skip := 3
      sleepTime := 0
      restartSleepTime := 5
      restartInterval := 0
      webPort := 26000
      crashThreshold := 3
      totalNumMutations := 10
      totalMutantIndex := 3
      netmonResults := []
      procmonResults := []
      isPaused := false
      graphEdges := []
      fuzzNodeId := none }
  exact ⟨h.2.1, h.2.2 "boofuzz.session" "disk full" rfl⟩

/-- C6: `restart_target` selects exactly one restart method, in priority
order: registered `on_failure` hooks first; else VM-control revert; else
process-monitor restart, raising `BoofuzzRestartFailedError` exactly when
that RPC returns false; else sleep for `restart_sleep_time`. -/
theorem restartTarget_priority (hooks : Nat) (sleepT : Int) (t : RTarget) :
    (0 < hooks →
      restartTarget hooks sleepT t =
        Except.ok (RestartMethod.onFailureHooks hooks))
    ∧ (hooks = 0 → t.vmcontrol = true →
      restartTarget hooks sleepT t = Except.ok RestartMethod.vmRevert)
    ∧ (∀ b : Bool, hooks = 0 → t.vmcontrol = false → t.procmon = some b →
      ((restartTarget hooks sleepT t = Except.error ()) ↔ b = false)
      ∧ (b = true →
        restartTarget hooks sleepT t = Except.ok RestartMethod.procmonRestart))
    ∧ (hooks = 0 → t.vmcontrol = false → t.procmon = none →
      restartTarget hooks sleepT t =
        Except.ok (RestartMethod.sleepWait sleepT)) := by
  refine ⟨fun h => ?_, fun h0 hvm => ?_, fun b h0 hvm hpm => ?_,
    fun h0 hvm hpm => ?_⟩
  · rw [restartTarget, if_pos h]
  · rw [restartTarget, if_neg (by omega), hvm, if_pos rfl]
  · subst h0
    rw [restartTarget] at *
    simp only [hvm, hpm]
    cases b <;> simp
  · rw [restartTarget, if_neg (by omega), hvm, hpm]
    simp

/-- Witness for C6: with no hooks, no VM control, and a process monitor
whose restart RPC fails, `restart_target` raises; with two hooks registered
they take priority regardless of the rest of the target. -/
theorem restartTarget_priority_witness :
    restartTarget 0 5 { vmcontrol := false, procmon := some false } =
      Except.error ()
    ∧ restartTarget 2 5 { vmcontrol := true, procmon := some true } =
      Except.ok (RestartMethod.onFailureHooks 2) := by
  constructor
  · exact ((restartTarget_priority 0 5
      { vmcontrol := false, procmon := some false }).2.2.1 false rfl rfl
      rfl).1.mpr rfl
  · exact (restartTarget_priority 2 5
      { vmcontrol := true, procmon := some true }).1 (by decide)

/-- C7: when `transmit` hits a connection-reset (resp. connection-aborted)
error during send or receive, and the corresponding ignore flag is set, the
event is logged as a single info entry, no failure entry is recorded, and
the test case completes (`transmitLogs` is total: the `except` clause
swallows the error); with the flag clear, the event is logged as a failure
entry, which the failure processor counts. -/
theorem transmit_reset_aborted_policy (ir ia : Bool) (errno : Int)
    (errmsg : String) :
    (ir = true →
      transmitLogs ir ia TransmitOutcome.connectionReset =
        [LogEntry.info "Target connection reset."]
      ∧ (transmitLogs ir ia TransmitOutcome.connectionReset).any
          LogEntry.isFail = false)
    ∧ (ir = false →
      transmitLogs ir ia TransmitOutcome.connectionReset =
        [LogEntry.fail "Target connection reset."]
      ∧ (transmitLogs ir ia TransmitOutcome.connectionReset).any
          LogEntry.isFail = true)
    ∧ (ia = true →
      transmitLogs ir ia (TransmitOutcome.connectionAborted errno errmsg) =
        [LogEntry.info (abortedMsg errno errmsg)]
      ∧ (transmitLogs ir ia
          (TransmitOutcome.connectionAborted errno errmsg)).any
          LogEntry.isFail = false)
    ∧ (ia = false →
      transmitLogs ir ia (TransmitOutcome.connectionAborted errno errmsg) =
        [LogEntry.fail (abortedMsg errno errmsg)]
      ∧ (transmitLogs ir ia
          (TransmitOutcome.connectionAborted errno errmsg)).any
          LogEntry.isFail = true) := by
  refine ⟨fun h => ?_, fun h => ?_, fun h => ?_, fun h => ?_⟩ <;>
    subst h <;>
    simp [transmitLogs, LogEntry.isFail]

/-- Witness for C7: with `ignore_connection_reset` set a reset yields one
info entry and no failure entry; with it clear, a failure entry. -/
theorem transmit_reset_aborted_policy_witness :
    transmitLogs true false TransmitOutcome.connectionReset =
      [LogEntry.info "Target connection reset."]
    ∧ (transmitLogs false false TransmitOutcome.connectionReset).any
        LogEntry.isFail = true := by
  exact ⟨((transmit_reset_aborted_policy true false 0 "").1 rfl).1,
    ((transmit_reset_aborted_policy false false 0 "").2.1 rfl).2⟩

/-- C8: the main fuzz loop's exception policy: every handled exception
persists the session state and logs an error; the exception is re-raised
as itself, except for target-connection-failed, which the loop swallows
after persisting (the loop then ends, so the error is fatal to the run). -/
theorem mainFuzzLoop_exception_policy (e : LoopException) :
    HandlerAction.exportSession ∈ (handleLoopException e).1
    ∧ (∃ msg, HandlerAction.logError msg ∈ (handleLoopException e).1)
    ∧ (handleLoopException e).2 =
        (if e = LoopException.targetConnectionFailed then none else some e) := by
  cases e <;> simp [handleLoopException]

/-- C9: for a `PreElement` whose key is present in the process-scoped
`KEYS` store, `_render` returns `key + ':' + value + '\n'` without a
callback and the callback applied to `(key, value)` with one; when the key
is absent, the lookup raises (`none`): the render function is partial in
the key. -/
theorem preElementRender_keyed_store (keys : List (String × String))
    (key v : String) (cb : String → String → String) :
    (keysLookup keys key = some v →
      preElementRender keys key none = some (key ++ ":" ++ v ++ "\n")
      ∧ preElementRender keys key (some cb) = some (cb key v))
    ∧ (keysLookup keys key = none →
      ∀ c : Option (String → String → String),
        preElementRender keys key c = none) := by
  constructor
  · intro h
    rw [preElementRender, h, preElementRender, h]
    exact ⟨rfl, rfl⟩
  · intro h c
    rw [preElementRender, h]

/-- Witness for C9: in a store holding `("user", "bob")`, rendering the key
`"user"` with no callback yields `"user:bob\n"`, and rendering the absent
key `"token"` raises (`none`). -/
theorem preElementRender_keyed_store_witness :
    preElementRender [("user", "bob")] "user" none =
      some ("user" ++ ":" ++ "bob" ++ "\n")
    ∧ preElementRender [("user", "bob")] "token" none = none := by
  exact ⟨((preElementRender_keyed_store [("user", "bob")] "user" "bob"
      (fun k w => w)).1 rfl).1,
    (preElementRender_keyed_store [("user", "bob")] "token" ""
      (fun k w => w)).2 rfl none⟩

/-- C10: in `transmit`, the bytes sent are the edge callback's return value
only when the edge has a callback and it returns truthy (non-empty) data;
with no callback, a `None` return, or an empty return, the destination
node's own `render()` output is sent — a callback cannot suppress the
transmission by returning nothing. -/
theorem transmitData_callback_truthy (render d : List Nat) :
    transmitData none render = render
    ∧ transmitData (some none) render = render
    ∧ transmitData (some (some [])) render = render
    ∧ (d ≠ [] → transmitData (some (some d)) render = d) := by
  refine ⟨rfl, rfl, rfl, fun h => ?_⟩
  rw [transmitData]
  simp [h]

/-- Witness for C10: a callback returning the bytes `[1, 2]` overrides the
node render `[9]`, while a callback returning `None` falls back to it. -/
theorem transmitData_callback_truthy_witness :
    transmitData (some (some [1, 2])) [9] = [1, 2]
    ∧ transmitData (some none) [9] = [9] := by
  exact ⟨(transmitData_callback_truthy [9] [1, 2]).2.2.2 (by decide),
    (transmitData_callback_truthy [9] [1, 2]).2.1⟩

end Boofuzz
